import Mathlib

/-!
Shallow embedding of src/send_call.py (function send_call_transcript).

The Python function reads the wall clock twice: first datetime.now(ist)
for the IST timestamp string (line 12), then datetime.now().timestamp()
for the numeric id (line 16).  Each clock reading is modelled as an
Instant: whole seconds since the Unix epoch plus a microsecond part.
Present-day clocks are after 1970, so seconds are a Nat.
-/

structure Instant where
  sec : Nat
  micro : Nat
deriving DecidableEq, Repr

/-- A timezone-aware Python datetime value in the Asia/Kolkata zone, as
produced by datetime.now(ist) on line 12: the calendar fields Python's
datetime type carries.  Python's datetime guarantees the documented field
ranges (year 1..9999, month 1..12, day 1..31, hour below 24, minute and
second below 60, microsecond below 1000000); those bounds appear as
hypotheses where proofs need them. -/
structure IstDateTime where
  year : Nat
  month : Nat
  day : Nat
  hour : Nat
  minute : Nat
  second : Nat
  microsecond : Nat
deriving DecidableEq, Repr

/-- The documented range invariants of Python's datetime fields. -/
def validDt (d : IstDateTime) : Prop :=
  1 ≤ d.year ∧ d.year ≤ 9999 ∧ 1 ≤ d.month ∧ d.month ≤ 12 ∧
  1 ≤ d.day ∧ d.day ≤ 31 ∧ d.hour < 24 ∧ d.minute < 60 ∧
  d.second < 60 ∧ d.microsecond < 1000000

/-- Days since the epoch to a civil (year, month, day) triple in the
proleptic Gregorian calendar, the arithmetic the datetime library performs
when it materialises a date from a timestamp. -/
def civilFromDays (z0 : Nat) : Nat × Nat × Nat :=
  let z := z0 + 719468
  let era := z / 146097
  let doe := z % 146097
  let yoe := (doe - doe / 1460 + doe / 36524 - doe / 146096) / 365
  let y := yoe + era * 400
  let doy := doe - (365 * yoe + yoe / 4 - yoe / 100)
  let mp := (5 * doy + 2) / 153
  let d := doy - (153 * mp + 2) / 5 + 1
  let m := if mp < 10 then mp + 3 else mp - 9
  (if m ≤ 2 then y + 1 else y, m, d)

/-- Asia/Kolkata has a fixed UTC+05:30 offset in the modern era: 19800
seconds. -/
def istOffsetSeconds : Nat := 19800

/-- datetime.now(ist): convert an instant to the IST calendar fields. -/
def istOfInstant (i : Instant) : IstDateTime :=
  let t := i.sec + istOffsetSeconds
  let ymd := civilFromDays (t / 86400)
  { year := ymd.1, month := ymd.2.1, day := ymd.2.2,
    hour := t % 86400 / 3600, minute := t % 3600 / 60, second := t % 60,
    microsecond := i.micro }

/-- Decimal digit characters, most significant first, with explicit fuel
so the definition computes by structural recursion; any fuel above the
digit count gives the full expansion. -/
def pyNatCharsAux : Nat → Nat → List Char
  | 0, _ => []
  | fuel + 1, n =>
      if n < 10 then [Nat.digitChar n]
      else pyNatCharsAux fuel (n / 10) ++ [Nat.digitChar (n % 10)]

/-- Decimal digit characters of a natural number, most significant first:
the digits Python prints for a nonnegative int.  Fuel n + 1 always exceeds
the digit count of n. -/
def pyNatChars (n : Nat) : List Char := pyNatCharsAux (n + 1) n

/-- Python str of a nonnegative int, e.g. the int interpolated on
line 16. -/
def pyNatStr (n : Nat) : String := ⟨pyNatChars n⟩

/-- Left-pad with zeros to width w, the percent-0wd formatting datetime
uses for calendar fields. -/
def padZeros (w : Nat) (cs : List Char) : List Char :=
  List.replicate (w - cs.length) '0' ++ cs

/-- A calendar field printed zero-padded to width w. -/
def pad (w n : Nat) : List Char := padZeros w (pyNatChars n)

/-- The character list of datetime.isoformat() for an aware IST datetime:
YYYY-MM-DDTHH:MM:SS, a .ffffff part exactly when the microsecond is
nonzero, then the +05:30 offset. -/
def isoChars (d : IstDateTime) : List Char :=
  pad 4 d.year ++ '-' :: pad 2 d.month ++ '-' :: pad 2 d.day ++
  'T' :: pad 2 d.hour ++ ':' :: pad 2 d.minute ++ ':' :: pad 2 d.second ++
  (if d.microsecond == 0 then [] else '.' :: pad 6 d.microsecond) ++
  ['+', '0', '5', ':', '3', '0']

/-- datetime.now(ist).isoformat() as on line 12 of the source. -/
def isoformat (d : IstDateTime) : String := ⟨isoChars d⟩

/-- The caller sub-object of the payload (lines 19-22). -/
structure Caller where
  name : String
  phone : String
deriving DecidableEq, Repr

/-- The payload dict built on lines 15-23 of send_call.py. -/
structure CallReport where
  id : String
  timestamp : String
  transcript : String
  caller : Caller
deriving DecidableEq, Repr

/-- Payload construction, lines 11-23: i1 is the clock reading of
datetime.now(ist) on line 12, i2 the reading of datetime.now().timestamp()
on line 16. -/
def mkCallReport (i1 i2 : Instant) (transcript caller_name caller_phone : String) :
    CallReport :=
  { id := "call_" ++ pyNatStr i2.sec,
    timestamp := isoformat (istOfInstant i1),
    transcript := transcript,
    caller := { name := caller_name, phone := caller_phone } }

example : civilFromDays 0 = (1970, 1, 1) := by decide
example : civilFromDays 18262 = (2020, 1, 1) := by decide
example : civilFromDays 11016 = (2000, 2, 29) := by decide
example : pyNatStr 0 = "0" := by decide
example : pyNatStr 1736900452 = "1736900452" := by decide
example : isoformat (istOfInstant ⟨0, 0⟩) = "1970-01-01T05:30:00+05:30" := by decide
example : isoformat (istOfInstant ⟨0, 7⟩) = "1970-01-01T05:30:00.000007+05:30" := by
  decide

/-- JSON values as produced by json.loads.  Numeric literals keep their
lexeme; their float value semantics plays no role in this program. -/
inductive Json where
  | null : Json
  | bool (b : Bool) : Json
  | num (lexeme : String) : Json
  | str (s : String) : Json
  | arr (elems : List Json) : Json
  | obj (fields : List (String × Json)) : Json

/-- The whitespace characters json.loads skips between tokens. -/
def isJsonWs (c : Char) : Bool :=
  c = ' ' || c = '\t' || c = '\n' || c = '\r'

/-- Drop leading JSON whitespace. -/
def skipWs : List Char → List Char
  | [] => []
  | c :: cs => if isJsonWs c then skipWs cs else c :: cs

/-- Value of one hexadecimal digit, for the backslash-u escape. -/
def hexVal (c : Char) : Option Nat :=
  if '0' ≤ c ∧ c ≤ '9' then some (c.toNat - '0'.toNat)
  else if 'a' ≤ c ∧ c ≤ 'f' then some (c.toNat - 'a'.toNat + 10)
  else if 'A' ≤ c ∧ c ≤ 'F' then some (c.toNat - 'A'.toNat + 10)
  else none

/-- The single-character JSON string escapes. -/
def jsonEscape : Char → Option Char
  | '"' => some '"'
  | '\\' => some '\\'
  | '/' => some '/'
  | 'b' => some (Char.ofNat 8)
  | 'f' => some (Char.ofNat 12)
  | 'n' => some '\n'
  | 'r' => some '\r'
  | 't' => some '\t'
  | _ => none

/-- Body of a JSON string after the opening quote: content up to the
closing quote, decoding escapes (surrogate pairing of backslash-u values
is not modelled), and the remaining input. -/
def parseStringBody : List Char → Option (List Char × List Char)
  | [] => none
  | '"' :: cs => some ([], cs)
  | '\\' :: 'u' :: h1 :: h2 :: h3 :: h4 :: cs =>
      match hexVal h1, hexVal h2, hexVal h3, hexVal h4 with
      | some a, some b, some c, some d =>
          match parseStringBody cs with
          | some (content, rest) =>
              some (Char.ofNat (((a * 16 + b) * 16 + c) * 16 + d) :: content, rest)
          | none => none
      | _, _, _, _ => none
  | '\\' :: e :: cs =>
      match jsonEscape e with
      | some c =>
          match parseStringBody cs with
          | some (content, rest) => some (c :: content, rest)
          | none => none
      | none => none
  | c :: cs =>
      match parseStringBody cs with
      | some (content, rest) => some (c :: content, rest)
      | none => none

/-- Longest leading run of decimal digits and the rest. -/
def takeDigits : List Char → List Char × List Char
  | [] => ([], [])
  | c :: cs =>
      if c.isDigit then
        let p := takeDigits cs
        (c :: p.1, p.2)
      else ([], c :: cs)

/-- Integer part of a JSON number: 0, or a nonzero digit followed by
digits (leading zeros are rejected, as in the JSON grammar). -/
def parseIntPart : List Char → Option (List Char × List Char)
  | '0' :: cs => some (['0'], cs)
  | c :: cs =>
      if c.isDigit then
        let p := takeDigits cs
        some (c :: p.1, p.2)
      else none
  | [] => none

/-- Optional fraction part: a dot must be followed by at least one
digit. -/
def parseFracPart : List Char → Option (List Char × List Char)
  | '.' :: cs =>
      match takeDigits cs with
      | ([], _) => none
      | (ds, rest) => some ('.' :: ds, rest)
  | cs => some ([], cs)

/-- Optional exponent part: e or E, an optional sign, then at least one
digit. -/
def parseExpPart : List Char → Option (List Char × List Char)
  | e :: cs =>
      if e = 'e' ∨ e = 'E' then
        match cs with
        | s :: cs2 =>
            if s = '+' ∨ s = '-' then
              match takeDigits cs2 with
              | ([], _) => none
              | (ds, rest) => some (e :: s :: ds, rest)
            else
              match takeDigits (s :: cs2) with
              | ([], _) => none
              | (ds, rest) => some (e :: ds, rest)
        | [] => none
      else some ([], e :: cs)
  | [] => some ([], [])

/-- A JSON number lexeme: optional minus, integer part, optional
fraction, optional exponent. -/
def parseNumberLex (cs : List Char) : Option (List Char × List Char) :=
  let sign : List Char × List Char :=
    match cs with
    | '-' :: r => (['-'], r)
    | _ => ([], cs)
  match parseIntPart sign.2 with
  | some (ip, r1) =>
      match parseFracPart r1 with
      | some (fp, r2) =>
          match parseExpPart r2 with
          | some (ep, r3) => some (sign.1 ++ ip ++ fp ++ ep, r3)
          | none => none
      | none => none
  | none => none

/-- Parser mode: a value, the elements of an array, or the members of an
object, with the part already read. -/
inductive PMode where
  | value : PMode
  | elems (acc : List Json) : PMode
  | members (acc : List (String × Json)) : PMode

/-- Recursive-descent JSON parser, structural on fuel so it computes.
Fuel only limits nesting-and-element recursion; parseJson passes enough
for any input of the given length. -/
def parseStep : Nat → PMode → List Char → Option (Json × List Char)
  | 0, _, _ => none
  | fuel + 1, PMode.value, cs =>
      match skipWs cs with
      | 'n' :: 'u' :: 'l' :: 'l' :: rest => some (Json.null, rest)
      | 't' :: 'r' :: 'u' :: 'e' :: rest => some (Json.bool true, rest)
      | 'f' :: 'a' :: 'l' :: 's' :: 'e' :: rest => some (Json.bool false, rest)
      | '"' :: rest =>
          match parseStringBody rest with
          | some (content, r) => some (Json.str ⟨content⟩, r)
          | none => none
      | '[' :: rest =>
          match skipWs rest with
          | ']' :: r => some (Json.arr [], r)
          | r => parseStep fuel (PMode.elems []) r
      | '{' :: rest =>
          match skipWs rest with
          | '}' :: r => some (Json.obj [], r)
          | r => parseStep fuel (PMode.members []) r
      | rest =>
          match parseNumberLex rest with
          | some (lex, r) => some (Json.num ⟨lex⟩, r)
          | none => none
  | fuel + 1, PMode.elems acc, cs =>
      match parseStep fuel PMode.value cs with
      | some (v, rest) =>
          match skipWs rest with
          | ',' :: r => parseStep fuel (PMode.elems (acc ++ [v])) r
          | ']' :: r => some (Json.arr (acc ++ [v]), r)
          | _ => none
      | none => none
  | fuel + 1, PMode.members acc, cs =>
      match skipWs cs with
      | '"' :: rest =>
          match parseStringBody rest with
          | some (key, r1) =>
              match skipWs r1 with
              | ':' :: r2 =>
                  match parseStep fuel PMode.value r2 with
                  | some (v, r3) =>
                      match skipWs r3 with
                      | ',' :: r4 =>
                          parseStep fuel (PMode.members (acc ++ [(⟨key⟩, v)])) r4
                      | '}' :: r4 => some (Json.obj (acc ++ [(⟨key⟩, v)]), r4)
                      | _ => none
                  | none => none
              | _ => none
          | none => none
      | _ => none

/-- json.loads: parse one JSON value and require only whitespace after
it.  This models the parse performed by response.json() on line 37. -/
def parseJson (s : String) : Option Json :=
  match parseStep (2 * s.length + 2) PMode.value s.data with
  | some (v, rest) => if skipWs rest = [] then some v else none
  | none => none

example : parseJson "\x7b\"status\":\"ok\"\x7d" = some (Json.obj [("status", Json.str "ok")]) :=
  rfl
example : parseJson "internal error" = none := rfl
example : parseJson " [1, true, null] " =
    some (Json.arr [Json.num "1", Json.bool true, Json.null]) := rfl
example : parseJson "01" = none := rfl
example : parseJson "\x7b\"a\": \x7b\"b\": [\"c\"]\x7d\x7d" =
    some (Json.obj [("a", Json.obj [("b", Json.arr [Json.str "c"])])]) := rfl

/-- The HTTP request issued by requests.post on line 32: method, fixed
URL, the explicitly set headers, and the json= body. -/
structure HttpRequest where
  method : String
  url : String
  headers : List (String × String)
  body : Json

/-- JSON serialization of the payload dict, in the insertion order of
lines 15-23. -/
def CallReport.toJson (r : CallReport) : Json :=
  Json.obj
    [("id", Json.str r.id),
     ("timestamp", Json.str r.timestamp),
     ("transcript", Json.str r.transcript),
     ("caller", Json.obj
        [("name", Json.str r.caller.name),
         ("phone", Json.str r.caller.phone)])]

/-- What one attempt of requests.post can come back with: a response
(status code and body text), or a raised RequestException (connection
refused, timeout, DNS failure, ...) carrying its message. -/
inductive TransportResult where
  | response (status : Nat) (body : String) : TransportResult
  | exn (msg : String) : TransportResult

/-- What the except clause on line 42 reports: the transport failure
raised by requests.post, or, when the library classes a JSON-decode
failure of response.json() as a RequestException, that failure. -/
inductive ReqExnInfo where
  | transport (msg : String) : ReqExnInfo
  | jsonDecode (body : String) : ReqExnInfo

/-- An exception escaping send_call_transcript.  The only candidate is
the JSON-decode failure of response.json() on line 37 when the library
does not class it as a RequestException. -/
inductive PyException where
  | jsonDecodeError (body : String) : PyException

/-- One console line printed by send_call_transcript, carried in
structured form: the success banner of line 36, the parsed response of
line 37, the status-code message of line 39, the raw body of line 40,
and the except-clause message of line 43. -/
inductive LogLine where
  | successBanner : LogLine
  | successResponse (parsed : Json) : LogLine
  | errorStatus (code : Nat) : LogLine
  | errorBody (raw : String) : LogLine
  | requestError (e : ReqExnInfo) : LogLine

/-- Observable effects of one call: every HTTP request issued, the
console lines printed, and the exception propagating to the caller, if
any. -/
structure ExecResult where
  requests : List HttpRequest
  log : List LogLine
  raised : Option PyException

/-- send_call_transcript, lines 6-43.  i1 and i2 are the two clock
readings (lines 12 and 16), transport is the behavior of requests.post,
and jsonErrCaught says whether the installed requests library classes the
response.json() decode failure as a RequestException: true for requests
2.27 and later, false for earlier versions, where json() raises a plain
ValueError that the except clause on line 42 does not match. -/
def send_call_transcript (jsonErrCaught : Bool) (i1 i2 : Instant)
    (transport : HttpRequest → TransportResult)
    (transcript caller_name caller_phone : String) : ExecResult :=
  let report := mkCallReport i1 i2 transcript caller_name caller_phone
  let req : HttpRequest :=
    { method := "POST",
      url := "http://localhost:3000/webhook",
      headers := [("Content-Type", "application/json")],
      body := report.toJson }
  match transport req with
  | TransportResult.response status body =>
      if status == 200 then
        match parseJson body with
        | some j =>
            { requests := [req],
              log := [LogLine.successBanner, LogLine.successResponse j],
              raised := none }
        | none =>
            if jsonErrCaught then
              { requests := [req],
                log := [LogLine.successBanner,
                        LogLine.requestError (ReqExnInfo.jsonDecode body)],
                raised := none }
            else
              { requests := [req],
                log := [LogLine.successBanner],
                raised := some (PyException.jsonDecodeError body) }
      else
        { requests := [req],
          log := [LogLine.errorStatus status, LogLine.errorBody body],
          raised := none }
  | TransportResult.exn msg =>
      { requests := [req],
        log := [LogLine.requestError (ReqExnInfo.transport msg)],
        raised := none }

theorem digitChar_isDigit : ∀ d : Nat, d < 10 → (Nat.digitChar d).isDigit = true := by
  decide

theorem pyNatCharsAux_all_digit (fuel : Nat) :
    ∀ n c, c ∈ pyNatCharsAux fuel n → c.isDigit = true := by
  induction fuel with
  | zero => intro n c hc; simp [pyNatCharsAux] at hc
  | succ f ih =>
      intro n c hc
      simp only [pyNatCharsAux] at hc
      by_cases h : n < 10
      · simp [h] at hc
        subst hc
        exact digitChar_isDigit n h
      · simp [h] at hc
        rcases hc with hc | hc
        · exact ih _ _ hc
        · subst hc
          exact digitChar_isDigit (n % 10) (Nat.mod_lt _ (by omega))

theorem pyNatChars_all_digit (n : Nat) :
    ∀ c ∈ pyNatChars n, c.isDigit = true :=
  fun c hc => pyNatCharsAux_all_digit (n + 1) n c hc

theorem pyNatChars_ne_nil (n : Nat) : pyNatChars n ≠ [] := by
  unfold pyNatChars pyNatCharsAux
  by_cases h : n < 10 <;> simp [h]

theorem pyNatCharsAux_length_le (fuel : Nat) :
    ∀ n k, n < fuel → 0 < k → n < 10 ^ k → (pyNatCharsAux fuel n).length ≤ k := by
  induction fuel with
  | zero => intro n k h; omega
  | succ f ih =>
      intro n k hn hk hpow
      simp only [pyNatCharsAux]
      by_cases h : n < 10
      · simp [h]; omega
      · simp only [h, if_false, List.length_append, List.length_cons,
                   List.length_nil]
        match k, hk with
        | 1, _ =>
            exfalso
            simp only [pow_one] at hpow
            omega
        | kk + 2, _ =>
            have h1 : n / 10 < f := by omega
            have hp : 10 ^ (kk + 2) = 10 ^ (kk + 1) * 10 := pow_succ 10 (kk + 1)
            have h2 : n / 10 < 10 ^ (kk + 1) := by omega
            have h3 := ih (n / 10) (kk + 1) h1 (by omega) h2
            omega

theorem pyNatChars_length_le (n k : Nat) (hk : 0 < k) (hp : n < 10 ^ k) :
    (pyNatChars n).length ≤ k :=
  pyNatCharsAux_length_le (n + 1) n k (by omega) hk hp

theorem pad_length (w n : Nat) (hw : 0 < w) (hp : n < 10 ^ w) :
    (pad w n).length = w := by
  have h := pyNatChars_length_le n w hw hp
  unfold pad padZeros
  simp only [List.length_append, List.length_replicate]
  omega

theorem pad_all_digit (w n : Nat) : ∀ c ∈ pad w n, c.isDigit = true := by
  intro c hc
  unfold pad padZeros at hc
  rw [List.mem_append] at hc
  rcases hc with hc | hc
  · rw [List.eq_of_mem_replicate hc]
    decide
  · exact pyNatChars_all_digit n c hc

/-- Positional checker for one run of exactly n decimal digits, returning
the remaining input. -/
def expectDigits : Nat → List Char → Option (List Char)
  | 0, cs => some cs
  | _ + 1, [] => none
  | n + 1, c :: cs => if c.isDigit then expectDigits n cs else none

/-- Positional checker for one literal character. -/
def expectChar (c : Char) : List Char → Option (List Char)
  | [] => none
  | x :: xs => if x = c then some xs else none

/-- Consume the date part of an ISO-8601 string: four digits, a hyphen,
two digits, a hyphen, two digits. -/
def afterDate (cs : List Char) : Option (List Char) :=
  (expectDigits 4 cs).bind fun r1 =>
  (expectChar '-' r1).bind fun r2 =>
  (expectDigits 2 r2).bind fun r3 =>
  (expectChar '-' r3).bind fun r4 =>
  expectDigits 2 r4

/-- Consume the time part: the T separator, then three colon-separated
two-digit fields. -/
def afterTime (cs : List Char) : Option (List Char) :=
  (expectChar 'T' cs).bind fun r1 =>
  (expectDigits 2 r1).bind fun r2 =>
  (expectChar ':' r2).bind fun r3 =>
  (expectDigits 2 r3).bind fun r4 =>
  (expectChar ':' r4).bind fun r5 =>
  expectDigits 2 r5

/-- After date and time: either the +05:30 offset directly, or a dot, six
fractional digits and the offset. -/
def checkTail : List Char → Bool
  | '.' :: r =>
      match expectDigits 6 r with
      | some r2 => decide (r2 = ['+', '0', '5', ':', '3', '0'])
      | none => false
  | r => decide (r = ['+', '0', '5', ':', '3', '0'])

/-- A syntactically valid ISO-8601 datetime carrying the fixed +05:30
offset: date, T, time, optional six-digit fraction, offset. -/
def isValidIso8601Ist (s : String) : Bool :=
  (((afterDate s.data).bind afterTime).map checkTail).getD false

theorem expectDigits_append (l rest : List Char)
    (hd : ∀ c ∈ l, c.isDigit = true) :
    expectDigits l.length (l ++ rest) = some rest := by
  induction l with
  | nil => rfl
  | cons c cs ih =>
      have hc : c.isDigit = true := hd c (List.mem_cons_self c cs)
      simp only [List.length_cons, List.cons_append, expectDigits, hc, if_true]
      exact ih fun x hx => hd x (List.mem_cons_of_mem c hx)

theorem expectDigits_pad (w n : Nat) (hw : 0 < w) (hp : n < 10 ^ w)
    (rest : List Char) : expectDigits w (pad w n ++ rest) = some rest := by
  have hl := pad_length w n hw hp
  have h := expectDigits_append (pad w n) rest (pad_all_digit w n)
  rwa [hl] at h

theorem expectChar_cons (c : Char) (rest : List Char) :
    expectChar c (c :: rest) = some rest := by
  simp [expectChar]

theorem pad2_run (n : Nat) (h : n < 100) (rest : List Char) :
    expectDigits 2 (pad 2 n ++ rest) = some rest :=
  expectDigits_pad 2 n (by norm_num) (by norm_num [h]) rest

theorem pad4_run (n : Nat) (h : n < 10000) (rest : List Char) :
    expectDigits 4 (pad 4 n ++ rest) = some rest :=
  expectDigits_pad 4 n (by norm_num) (by norm_num [h]) rest

theorem pad6_run (n : Nat) (h : n < 1000000) (rest : List Char) :
    expectDigits 6 (pad 6 n ++ rest) = some rest :=
  expectDigits_pad 6 n (by norm_num) (by norm_num [h]) rest

theorem isoformat_valid (d : IstDateTime) (h : validDt d) :
    isValidIso8601Ist (isoformat d) = true := by
  obtain ⟨h1, h2, h3, h4, h5, h6, h7, h8, h9, h10⟩ := h
  have hy : d.year < 10000 := by omega
  have hmo : d.month < 100 := by omega
  have hdd : d.day < 100 := by omega
  have hh : d.hour < 100 := by omega
  have hmi : d.minute < 100 := by omega
  have hse : d.second < 100 := by omega
  have hus : d.microsecond < 1000000 := by omega
  simp only [isoformat, isValidIso8601Ist,
             show (String.mk (isoChars d)).data = isoChars d from rfl, isoChars,
             afterDate, afterTime, List.append_assoc, List.cons_append,
             List.nil_append,
             pad4_run d.year hy, pad2_run d.month hmo, pad2_run d.day hdd,
             pad2_run d.hour hh, pad2_run d.minute hmi, pad2_run d.second hse,
             Option.some_bind, expectChar_cons, Option.map_some', Option.getD_some]
  by_cases hmz : d.microsecond = 0
  · simp [hmz, checkTail]
  · simp only [hmz, beq_iff_eq, if_false, List.cons_append, checkTail]
    rw [pad6_run d.microsecond hus]
    simp

theorem istOfInstant_valid (i : Instant) (hm : i.micro < 1000000)
    (hs : i.sec + istOffsetSeconds < 253402300800) :
    validDt (istOfInstant i) := by
  unfold validDt istOfInstant civilFromDays istOffsetSeconds at *
  simp only
  refine ⟨?_, ?_, ?_, ?_, ?_, ?_, ?_, ?_, ?_, ?_⟩ <;> (try split_ifs) <;> omega

/-- The shape the spec requires of the id: the fixed prefix then at least
one decimal digit. -/
def isCallIdPattern (s : String) : Bool :=
  match s.data with
  | 'c' :: 'a' :: 'l' :: 'l' :: '_' :: rest =>
      decide (rest ≠ []) && rest.all Char.isDigit
  | _ => false

/-- C1: for every string triple, the constructed payload passes
transcript, caller name and caller phone through exactly, with no
validation or normalization. -/
theorem payload_fields_passthrough (i1 i2 : Instant)
    (transcript caller_name caller_phone : String) :
    (mkCallReport i1 i2 transcript caller_name caller_phone).transcript = transcript ∧
    (mkCallReport i1 i2 transcript caller_name caller_phone).caller.name = caller_name ∧
    (mkCallReport i1 i2 transcript caller_name caller_phone).caller.phone = caller_phone :=
  ⟨rfl, rfl, rfl⟩

/-- C2: the payload id is the fixed prefix call_ followed by the decimal
digits of the epoch-second count of the clock reading taken on line 16,
and so always matches call_ then digits. -/
theorem id_matches_call_pattern (i1 i2 : Instant) (t n p : String) :
    (mkCallReport i1 i2 t n p).id = "call_" ++ pyNatStr i2.sec ∧
    isCallIdPattern (mkCallReport i1 i2 t n p).id = true := by
  refine ⟨rfl, ?_⟩
  show isCallIdPattern ("call_" ++ pyNatStr i2.sec) = true
  have hdata : ("call_" ++ pyNatStr i2.sec).data =
      'c' :: 'a' :: 'l' :: 'l' :: '_' :: pyNatChars i2.sec := rfl
  simp only [isCallIdPattern, hdata, Bool.and_eq_true, decide_eq_true_eq,
             List.all_eq_true]
  exact ⟨pyNatChars_ne_nil i2.sec, fun c hc => pyNatChars_all_digit i2.sec c hc⟩

/-- C3: the payload timestamp is a syntactically valid ISO-8601 datetime
string with the fixed +05:30 offset, for any clock reading a Python
datetime can represent (microseconds in range, IST time before year
10000). -/
theorem timestamp_is_valid_iso8601 (i1 i2 : Instant) (t n p : String)
    (hm : i1.micro < 1000000) (hs : i1.sec + istOffsetSeconds < 253402300800) :
    isValidIso8601Ist (mkCallReport i1 i2 t n p).timestamp = true :=
  isoformat_valid (istOfInstant i1) (istOfInstant_valid i1 hm hs)

theorem timestamp_is_valid_iso8601_witness :
    (⟨1736899200, 123456⟩ : Instant).micro < 1000000 ∧
    (⟨1736899200, 123456⟩ : Instant).sec + istOffsetSeconds < 253402300800 ∧
    isValidIso8601Ist
      (mkCallReport ⟨1736899200, 123456⟩ ⟨1736899200, 123456⟩ "t" "n" "p").timestamp
      = true :=
  ⟨by decide, by decide,
   timestamp_is_valid_iso8601 ⟨1736899200, 123456⟩ ⟨1736899200, 123456⟩ "t" "n" "p"
     (by decide) (by decide)⟩

/-- C4: every invocation issues exactly one POST request, to the fixed
URL, with the Content-Type header and the serialized payload as body,
whatever the transport does. -/
theorem single_post_to_fixed_url (flag : Bool) (i1 i2 : Instant)
    (transport : HttpRequest → TransportResult) (t n p : String) :
    (send_call_transcript flag i1 i2 transport t n p).requests =
      [{ method := "POST",
         url := "http://localhost:3000/webhook",
         headers := [("Content-Type", "application/json")],
         body := (mkCallReport i1 i2 t n p).toJson }] := by
  simp only [send_call_transcript]
  rcases htr : transport
      { method := "POST",
        url := "http://localhost:3000/webhook",
        headers := [("Content-Type", "application/json")],
        body := (mkCallReport i1 i2 t n p).toJson } with ⟨status, body⟩ | msg <;>
    simp only [htr] <;> (repeat' split) <;> rfl

/-- C5: a 200 response whose body parses as JSON is treated as success:
the function logs the success banner and the parsed body, raises nothing,
and leaves the error paths silent. -/
theorem status200_success_logged (flag : Bool) (i1 i2 : Instant)
    (body : String) (j : Json) (t n p : String)
    (hp : parseJson body = some j) :
    (send_call_transcript flag i1 i2
        (fun _ => TransportResult.response 200 body) t n p).log =
      [LogLine.successBanner, LogLine.successResponse j] ∧
    (send_call_transcript flag i1 i2
        (fun _ => TransportResult.response 200 body) t n p).raised = none := by
  constructor <;> simp [send_call_transcript, hp]

theorem status200_success_logged_witness :
    parseJson "\x7b\"status\":\"ok\"\x7d" = some (Json.obj [("status", Json.str "ok")]) ∧
    (send_call_transcript true ⟨0, 0⟩ ⟨0, 0⟩
        (fun _ => TransportResult.response 200 "\x7b\"status\":\"ok\"\x7d") "t" "n" "p").log =
      [LogLine.successBanner,
       LogLine.successResponse (Json.obj [("status", Json.str "ok")])] ∧
    (send_call_transcript true ⟨0, 0⟩ ⟨0, 0⟩
        (fun _ => TransportResult.response 200 "\x7b\"status\":\"ok\"\x7d") "t" "n" "p").raised =
      none :=
  ⟨rfl,
   (status200_success_logged true ⟨0, 0⟩ ⟨0, 0⟩ "\x7b\"status\":\"ok\"\x7d"
      (Json.obj [("status", Json.str "ok")]) "t" "n" "p" rfl).1,
   (status200_success_logged true ⟨0, 0⟩ ⟨0, 0⟩ "\x7b\"status\":\"ok\"\x7d"
      (Json.obj [("status", Json.str "ok")]) "t" "n" "p" rfl).2⟩

/-- C6: any non-200 response is treated as failure: the status code and
the raw, unparsed body are logged, for every body string (so logging a
non-JSON body cannot raise a secondary error), and nothing propagates. -/
theorem non200_failure_logged (flag : Bool) (i1 i2 : Instant)
    (status : Nat) (body : String) (t n p : String)
    (hst : status ≠ 200) :
    (send_call_transcript flag i1 i2
        (fun _ => TransportResult.response status body) t n p).log =
      [LogLine.errorStatus status, LogLine.errorBody body] ∧
    (send_call_transcript flag i1 i2
        (fun _ => TransportResult.response status body) t n p).raised = none := by
  constructor <;> simp [send_call_transcript, hst]

theorem non200_failure_logged_witness :
    (500 : Nat) ≠ 200 ∧
    (send_call_transcript true ⟨0, 0⟩ ⟨0, 0⟩
        (fun _ => TransportResult.response 500 "internal error") "t" "n" "p").log =
      [LogLine.errorStatus 500, LogLine.errorBody "internal error"] ∧
    (send_call_transcript true ⟨0, 0⟩ ⟨0, 0⟩
        (fun _ => TransportResult.response 500 "internal error") "t" "n" "p").raised =
      none :=
  ⟨by decide,
   (non200_failure_logged true ⟨0, 0⟩ ⟨0, 0⟩ 500 "internal error" "t" "n" "p"
      (by decide)).1,
   (non200_failure_logged true ⟨0, 0⟩ ⟨0, 0⟩ 500 "internal error" "t" "n" "p"
      (by decide)).2⟩

/-- C7 counterexample: with a requests library that predates classing the
response.json() decode failure as a RequestException, a 200 response with
a non-JSON body makes the call raise, so an exception can propagate to
the caller. -/
theorem status200_nonjson_can_raise :
    (send_call_transcript false ⟨0, 0⟩ ⟨0, 0⟩
        (fun _ => TransportResult.response 200 "internal error") "t" "n" "p").raised =
      some (PyException.jsonDecodeError "internal error") := rfl

/-- A transport outcome that cannot trip the except clause gap: anything
except a 200 response whose body fails to parse as JSON. -/
def transportSafe : TransportResult → Bool
  | TransportResult.response status body =>
      if status == 200 then (parseJson body).isSome else true
  | TransportResult.exn _ => true

/-- C7 amended: for every transport outcome the function catches the
failure, logs the console message of the branch it took, and returns
normally, except in the single case of a 200 response with a non-JSON
body under a requests library older than 2.27, where the JSON-decode
failure escapes the except clause.  The conclusion names the console line
of each branch: the transport-error line of line 43 on a raised
RequestException, the status-code and raw-body lines of lines 39-40 on a
non-200 status, the parsed-body line of line 37 on a 200 status with a
JSON body, and the caught-decode-error line on a 200 status with a
non-JSON body under requests 2.27 or later. -/
theorem no_exception_propagates (flag : Bool) (i1 i2 : Instant)
    (res : TransportResult) (t n p : String)
    (h : flag = true ∨ transportSafe res = true) :
    (send_call_transcript flag i1 i2 (fun _ => res) t n p).raised = none ∧
    (∀ msg, res = TransportResult.exn msg →
      LogLine.requestError (ReqExnInfo.transport msg) ∈
        (send_call_transcript flag i1 i2 (fun _ => res) t n p).log) ∧
    (∀ status body, res = TransportResult.response status body → status ≠ 200 →
      LogLine.errorStatus status ∈
        (send_call_transcript flag i1 i2 (fun _ => res) t n p).log ∧
      LogLine.errorBody body ∈
        (send_call_transcript flag i1 i2 (fun _ => res) t n p).log) ∧
    (∀ body j, res = TransportResult.response 200 body → parseJson body = some j →
      LogLine.successResponse j ∈
        (send_call_transcript flag i1 i2 (fun _ => res) t n p).log) ∧
    (∀ body, res = TransportResult.response 200 body → parseJson body = none →
      LogLine.requestError (ReqExnInfo.jsonDecode body) ∈
        (send_call_transcript flag i1 i2 (fun _ => res) t n p).log) := by
  rcases res with ⟨status, body⟩ | msg
  · by_cases hst : status = 200
    · subst hst
      cases hpj : parseJson body with
      | some j =>
          refine ⟨by simp [send_call_transcript, hpj], ?_, ?_, ?_, ?_⟩
          · intro msg heq
            injection heq
          · intro status' body' heq hne
            injection heq with h1 h2
            exact absurd h1.symm hne
          · intro body' j' heq hp
            injection heq with h1 h2
            subst h2
            rw [hpj] at hp
            injection hp with hj
            subst hj
            simp [send_call_transcript, hpj]
          · intro body' heq hpn
            injection heq with h1 h2
            subst h2
            rw [hpj] at hpn
            exact Option.noConfusion hpn
      | none =>
          have hf : flag = true := by
            rcases h with hf | hsafe
            · exact hf
            · exfalso
              simp [transportSafe, hpj] at hsafe
          subst hf
          refine ⟨by simp [send_call_transcript, hpj], ?_, ?_, ?_, ?_⟩
          · intro msg heq
            injection heq
          · intro status' body' heq hne
            injection heq with h1 h2
            exact absurd h1.symm hne
          · intro body' j' heq hp
            injection heq with h1 h2
            subst h2
            rw [hpj] at hp
            exact Option.noConfusion hp
          · intro body' heq hpn
            injection heq with h1 h2
            subst h2
            simp [send_call_transcript, hpj]
    · refine ⟨by simp [send_call_transcript, hst], ?_, ?_, ?_, ?_⟩
      · intro msg heq
        injection heq
      · intro status' body' heq hne
        injection heq with h1 h2
        subst h1
        subst h2
        simp [send_call_transcript, hst]
      · intro body' j' heq hp
        injection heq with h1 h2
        exact absurd h1 hst
      · intro body' heq hpn
        injection heq with h1 h2
        exact absurd h1 hst
  · refine ⟨by simp [send_call_transcript], ?_, ?_, ?_, ?_⟩
    · intro msg' heq
      injection heq with h1
      subst h1
      simp [send_call_transcript]
    · intro status' body' heq hne
      injection heq
    · intro body' j' heq hp
      injection heq
    · intro body' heq hpn
      injection heq

theorem no_exception_propagates_witness :
    (false = true ∨ transportSafe (TransportResult.exn "connection refused") = true) ∧
    (send_call_transcript false ⟨0, 0⟩ ⟨0, 0⟩
        (fun _ => TransportResult.exn "connection refused") "t" "n" "p").raised =
      none ∧
    LogLine.requestError (ReqExnInfo.transport "connection refused") ∈
      (send_call_transcript false ⟨0, 0⟩ ⟨0, 0⟩
        (fun _ => TransportResult.exn "connection refused") "t" "n" "p").log :=
  ⟨Or.inr rfl,
   (no_exception_propagates false ⟨0, 0⟩ ⟨0, 0⟩ (TransportResult.exn "connection refused")
     "t" "n" "p" (Or.inr rfl)).1,
   (no_exception_propagates false ⟨0, 0⟩ ⟨0, 0⟩ (TransportResult.exn "connection refused")
     "t" "n" "p" (Or.inr rfl)).2.1 "connection refused" rfl⟩

/-- C8: two invocations whose id clock readings fall in the same integer
second build identical id values, whatever their microsecond parts and
the other inputs. -/
theorem same_second_same_id (i1 i1' i2 i2' : Instant)
    (t n p t' n' p' : String) (h : i2.sec = i2'.sec) :
    (mkCallReport i1 i2 t n p).id = (mkCallReport i1' i2' t' n' p').id := by
  simp [mkCallReport, h]

theorem same_second_same_id_witness :
    (⟨5, 1⟩ : Instant).sec = (⟨5, 999999⟩ : Instant).sec ∧
    (mkCallReport ⟨0, 0⟩ ⟨5, 1⟩ "a" "b" "c").id =
      (mkCallReport ⟨1, 2⟩ ⟨5, 999999⟩ "x" "y" "z").id :=
  ⟨rfl, same_second_same_id ⟨0, 0⟩ ⟨1, 2⟩ ⟨5, 1⟩ ⟨5, 999999⟩ "a" "b" "c" "x" "y" "z" rfl⟩

/-- C9: the id and the timestamp come from two separate clock readings;
for readings one microsecond apart across a second boundary, the second
shown by the timestamp and the second encoded in the id disagree. -/
theorem id_and_timestamp_seconds_can_disagree :
    ∃ i1 i2 : Instant,
      i2.sec * 1000000 + i2.micro = i1.sec * 1000000 + i1.micro + 1 ∧
      (mkCallReport i1 i2 "t" "n" "p").timestamp =
        "1970-01-01T05:30:00.999999+05:30" ∧
      (mkCallReport i1 i2 "t" "n" "p").id = "call_1" ∧
      (istOfInstant i1).second ≠ (istOfInstant ⟨i2.sec, 0⟩).second :=
  ⟨⟨0, 999999⟩, ⟨1, 0⟩, by decide, by decide, by decide, by decide⟩

/-- C10: on a 200 response whose body is not valid JSON, the parsed-body
success log is never produced; whether the function still returns
normally depends on whether the library classes the decode failure as a
RequestException (caught when it does, propagated when it does not). -/
theorem status200_invalid_json_no_success_log (flag : Bool) (i1 i2 : Instant)
    (body : String) (t n p : String) (hp : parseJson body = none) :
    (∀ j, LogLine.successResponse j ∉
        (send_call_transcript flag i1 i2
          (fun _ => TransportResult.response 200 body) t n p).log) ∧
    (flag = true →
      (send_call_transcript flag i1 i2
          (fun _ => TransportResult.response 200 body) t n p).raised = none) ∧
    (flag = false →
      (send_call_transcript flag i1 i2
          (fun _ => TransportResult.response 200 body) t n p).raised =
        some (PyException.jsonDecodeError body)) := by
  cases flag <;> simp [send_call_transcript, hp]

theorem status200_invalid_json_no_success_log_witness :
    parseJson "internal error" = none ∧
    LogLine.successResponse Json.null ∉
      (send_call_transcript false ⟨0, 0⟩ ⟨0, 0⟩
        (fun _ => TransportResult.response 200 "internal error") "t" "n" "p").log ∧
    (send_call_transcript false ⟨0, 0⟩ ⟨0, 0⟩
        (fun _ => TransportResult.response 200 "internal error") "t" "n" "p").raised =
      some (PyException.jsonDecodeError "internal error") :=
  ⟨rfl,
   (status200_invalid_json_no_success_log false ⟨0, 0⟩ ⟨0, 0⟩ "internal error"
      "t" "n" "p" rfl).1 Json.null,
   (status200_invalid_json_no_success_log false ⟨0, 0⟩ ⟨0, 0⟩ "internal error"
      "t" "n" "p" rfl).2.2 rfl⟩
